import Mathlib

/-!
Shallow embedding of the Volcano Hybrid device-communication core
(`custom_components/volcano_hybrid/volcano.py` and
`volcano_hybrid/coordinator.py`) and proofs about it.

Conventions of the embedding:
- byte strings become `List Nat` (each entry a byte value); a read that
  raised or returned `None` becomes `Option.none`;
- `time.time()` instants become `Nat` arguments passed explicitly; the
  Python float subtraction `time.time() - t > 5` agrees with truncated
  `Nat` subtraction `5 < now - t` whenever `t <= now`, and both are false
  when `now < t`;
- Python `round(v / 10)` on a nonnegative integer `v` is bankers rounding
  at the exact halfway point (`v % 10 = 5`, where `v / 10` is an exactly
  representable binary float), ordinary nearest rounding otherwise; it is
  modelled by `pyRound10`.
-/

namespace VolcanoHybrid

/-- Mutable fields of `VolcanoHybrid` touched by `_process_notification`
and the heater commands (`volcano.py`, `__init__`). -/
structure VolcanoState where
  current_temperature : Nat
  heater_on : Bool
  fan_on : Bool
  last_heater_change_time : Nat
  heater_change_source : String
  temp_cache_time : Nat
deriving Repr, DecidableEq

/-- Field values set in `VolcanoHybrid.__init__` (`volcano.py` lines 22-33). -/
def initialState : VolcanoState :=
  { current_temperature := 0
    heater_on := false
    fan_on := false
    last_heater_change_time := 0
    heater_change_source := "init"
    temp_cache_time := 0 }

/-- Little-endian decode of the first two bytes:
`data[0] + (data[1] * 256)` (`volcano.py` line 724). -/
def decodeWord (data : List Nat) : Nat :=
  data.getD 0 0 + data.getD 1 0 * 256

/-- Embedding of `VolcanoHybrid._process_notification` (`volcano.py`
lines 718-759). `data = []` also models the Python `not data` case
(`None` or empty bytes). -/
def process_notification (st : VolcanoState) (data : List Nat)
    (source : String) (now : Nat) : VolcanoState :=
  if data.length < 2 then st
  else
    let decoded := decodeWord data
    let unmasked_fan_on := decoded &&& 0x2000
    let unmasked_heat_on := decoded &&& 0x0020
    let st1 :=
      if source = "user_command" ∨ 5 < now - st.last_heater_change_time ∨
          st.heater_change_source ≠ "user_command" then
        { st with heater_on := decide (unmasked_heat_on ≠ 0) }
      else st
    let st2 := { st1 with fan_on := decide (unmasked_fan_on ≠ 0) }
    let temp_value := (decoded &&& 0xFF00) >>> 8
    if 40 ≤ temp_value ∧ temp_value ≤ 230 then
      { st2 with current_temperature := temp_value, temp_cache_time := now }
    else st2

/-- Embedding of the state effect of `VolcanoHybrid.turn_heater_on`
(`volcano.py` lines 816-823), after its command submission succeeds. -/
def turn_heater_on (st : VolcanoState) (now : Nat) : VolcanoState :=
  { st with heater_on := true
            last_heater_change_time := now
            heater_change_source := "user_command" }

/-- Embedding of the state effect of `VolcanoHybrid.turn_heater_off`
(`volcano.py` lines 825-832). -/
def turn_heater_off (st : VolcanoState) (now : Nat) : VolcanoState :=
  { st with heater_on := false
            last_heater_change_time := now
            heater_change_source := "user_command" }

lemma process_notification_short (st : VolcanoState) (data : List Nat)
    (source : String) (now : Nat) (h : data.length < 2) :
    process_notification st data source now = st := by
  unfold process_notification
  rw [if_pos h]

lemma process_notification_heater (st : VolcanoState) (data : List Nat)
    (source : String) (now : Nat) (h : 2 ≤ data.length) :
    (process_notification st data source now).heater_on =
      if source = "user_command" ∨ 5 < now - st.last_heater_change_time ∨
          st.heater_change_source ≠ "user_command" then
        decide (decodeWord data &&& 0x0020 ≠ 0)
      else st.heater_on := by
  unfold process_notification
  rw [if_neg (by omega)]
  dsimp only
  split_ifs <;> rfl

lemma process_notification_fan (st : VolcanoState) (data : List Nat)
    (source : String) (now : Nat) (h : 2 ≤ data.length) :
    (process_notification st data source now).fan_on =
      decide (decodeWord data &&& 0x2000 ≠ 0) := by
  unfold process_notification
  rw [if_neg (by omega)]
  dsimp only
  split_ifs <;> rfl

/-- C1: for a payload of length >= 2 processed with source
`"notification"`, the heater flag is taken from the payload exactly when
more than 5 seconds have elapsed since the recorded last heater change or
the recorded last-change source is not `"user_command"`; otherwise it is
left unchanged.  Source `"user_command"` always applies the payload's
heater bit.  Consequently a notification arriving within 5 seconds of a
`turn_heater_on` is ignored for the heater flag, and one arriving after
more than 5 seconds is applied. -/
theorem heater_override_window (st : VolcanoState) (data : List Nat)
    (now : Nat) (h : 2 ≤ data.length) :
    ((process_notification st data "notification" now).heater_on =
      if 5 < now - st.last_heater_change_time ∨
          st.heater_change_source ≠ "user_command" then
        decide (decodeWord data &&& 0x0020 ≠ 0)
      else st.heater_on) ∧
    ((process_notification st data "user_command" now).heater_on =
      decide (decodeWord data &&& 0x0020 ≠ 0)) ∧
    (∀ t0, now - t0 ≤ 5 →
      (process_notification (turn_heater_on st t0) data "notification" now).heater_on
        = true) ∧
    (∀ t0, 5 < now - t0 →
      (process_notification (turn_heater_on st t0) data "notification" now).heater_on
        = decide (decodeWord data &&& 0x0020 ≠ 0)) := by
  have hns : ("notification" : String) ≠ "user_command" := by decide
  have huc : ("user_command" : String) = "user_command" := rfl
  refine ⟨?_, ?_, ?_, ?_⟩
  · rw [process_notification_heater st data "notification" now h]
    by_cases hc : 5 < now - st.last_heater_change_time ∨
        st.heater_change_source ≠ "user_command"
    · rw [if_pos (Or.inr hc), if_pos hc]
    · rw [if_neg (by tauto), if_neg hc]
  · rw [process_notification_heater st data "user_command" now h]
    rw [if_pos (Or.inl huc)]
  · intro t0 ht
    rw [process_notification_heater _ data "notification" now h]
    rw [if_neg]
    · rfl
    · unfold turn_heater_on
      dsimp only
      push_neg
      exact ⟨fun hcon => absurd hcon hns, by omega, rfl⟩
  · intro t0 ht
    rw [process_notification_heater _ data "notification" now h]
    rw [if_pos]
    unfold turn_heater_on
    dsimp only
    exact Or.inr (Or.inl ht)

/-- Witness for `heater_override_window` at a concrete payload. -/
theorem heater_override_window_witness :
    (process_notification initialState [0x20, 0x00] "user_command" 7).heater_on
      = true :=
  ((heater_override_window initialState [0x20, 0x00] 7 (by decide)).2.1).trans
    (by decide)

/-- C2: for every payload of length >= 2 the first two bytes are decoded
little-endian into a word `v`; the fan flag becomes `v &&& 0x2000 ≠ 0`
(for any state), and the heater flag becomes `v &&& 0x0020 ≠ 0` whenever
the override window allows the update (as from the initial state).  In
particular payload `0x20 0x00` yields heater on / fan off, and payload
`0x00 0x20` yields fan on / heater off. -/
theorem status_bit_decoding (st : VolcanoState) (data : List Nat)
    (now : Nat) (h : 2 ≤ data.length) :
    ((process_notification st data "notification" now).fan_on =
      decide (decodeWord data &&& 0x2000 ≠ 0)) ∧
    ((process_notification initialState data "notification" now).heater_on =
      decide (decodeWord data &&& 0x0020 ≠ 0)) ∧
    ((process_notification initialState [0x20, 0x00] "notification" now).heater_on
        = true ∧
      (process_notification initialState [0x20, 0x00] "notification" now).fan_on
        = false) ∧
    ((process_notification initialState [0x00, 0x20] "notification" now).fan_on
        = true ∧
      (process_notification initialState [0x00, 0x20] "notification" now).heater_on
        = false) := by
  refine ⟨process_notification_fan st data "notification" now h, ?_, ?_, ?_⟩
  · rw [process_notification_heater initialState data "notification" now h]
    rw [if_pos (Or.inr (Or.inr (by decide)))]
  · constructor
    · rw [process_notification_heater initialState [0x20, 0x00] "notification" now
        (by decide)]
      rw [if_pos (Or.inr (Or.inr (by decide)))]
      decide
    · rw [process_notification_fan initialState [0x20, 0x00] "notification" now
        (by decide)]
      decide
  · constructor
    · rw [process_notification_fan initialState [0x00, 0x20] "notification" now
        (by decide)]
      decide
    · rw [process_notification_heater initialState [0x00, 0x20] "notification" now
        (by decide)]
      rw [if_pos (Or.inr (Or.inr (by decide)))]
      decide

/-- Witness for `status_bit_decoding` at a concrete payload. -/
theorem status_bit_decoding_witness :
    (process_notification initialState [0x00, 0x20] "notification" 3).fan_on
      = true :=
  ((status_bit_decoding initialState [0x00, 0x20] 3 (by decide)).1).trans
    (by decide)

/-- C8: a payload of length < 2 (an empty or missing payload included)
leaves the whole device state unchanged: heater flag, fan flag, current
temperature and temperature-cache timestamp are exactly as before. -/
theorem short_payload_no_mutation (st : VolcanoState) (data : List Nat)
    (source : String) (now : Nat) (h : data.length < 2) :
    process_notification st data source now = st :=
  process_notification_short st data source now h

/-- Witness for `short_payload_no_mutation` on the empty payload. -/
theorem short_payload_no_mutation_witness :
    process_notification initialState [] "notification" 9 = initialState :=
  short_payload_no_mutation initialState [] "notification" 9 (by decide)

/-- C10: the fan flag is outside the override window: for every payload
of length >= 2 and every source the fan flag is set from bit `0x2000`,
even in a state where the heater update from the same payload is
suppressed (last change by `"user_command"` within 5 seconds). -/
theorem fan_flag_unprotected (st : VolcanoState) (data : List Nat)
    (source : String) (now : Nat) (h : 2 ≤ data.length) :
    ((process_notification st data source now).fan_on =
      decide (decodeWord data &&& 0x2000 ≠ 0)) ∧
    (st.heater_change_source = "user_command" →
      now - st.last_heater_change_time ≤ 5 → source = "notification" →
      (process_notification st data source now).heater_on = st.heater_on) := by
  refine ⟨process_notification_fan st data source now h, ?_⟩
  intro hsrc htime hnotif
  rw [process_notification_heater st data source now h]
  rw [if_neg]
  push_neg
  refine ⟨?_, by omega, hsrc⟩
  rw [hnotif]
  decide

/-- Witness for `fan_flag_unprotected`: inside the override window the
fan flag still updates while the heater flag does not. -/
theorem fan_flag_unprotected_witness :
    (process_notification
        { initialState with last_heater_change_time := 10
                            heater_change_source := "user_command" }
        [0x00, 0x20] "notification" 12).fan_on = true ∧
    (process_notification
        { initialState with last_heater_change_time := 10
                            heater_change_source := "user_command" }
        [0x00, 0x20] "notification" 12).heater_on = false := by
  have h := fan_flag_unprotected
    { initialState with last_heater_change_time := 10
                        heater_change_source := "user_command" }
    [0x00, 0x20] "notification" 12 (by decide)
  exact ⟨h.1.trans (by decide), (h.2 rfl (by decide) rfl).trans (by decide)⟩

/-! Target-temperature write/read path (claim C3). -/

/-- Python `round(v / 10)` for a nonnegative integer `v`: nearest
rounding, ties (exact `.5`, which is exactly representable) to even. -/
def pyRound10 (v : Nat) : Nat :=
  if v % 10 < 5 then v / 10
  else if 5 < v % 10 then v / 10 + 1
  else if v / 10 % 2 = 0 then v / 10 else v / 10 + 1

/-- Payload built by `VolcanoHybrid.set_target_temperature`
(`volcano.py` lines 1013-1028): clamp to `[40, 230]`, then
`struct.pack('<I', temperature * 10)`. -/
def set_target_temperature_bytes (temperature : Nat) : List Nat :=
  let t := max 40 (min 230 temperature)
  [t * 10 % 256, t * 10 / 256 % 256, t * 10 / 65536 % 256,
    t * 10 / 16777216 % 256]

/-- Embedding of `VolcanoHybrid._fast_read_target_temperature`
(`volcano.py` lines 982-1011): `readValue = none` models a raised or
timed-out transport read; any failure returns the previous target. -/
def fast_read_target_temperature (prev : Nat) (readValue : Option (List Nat))
    (connected : Bool) : Nat :=
  if ¬connected then prev
  else
    match readValue with
    | none => prev
    | some bs =>
      if 2 ≤ bs.length then pyRound10 (decodeWord bs) else prev

/-- Embedding of `VolcanoHybrid.read_target_temperature`
(`volcano.py` lines 1030-1070): try the fast read; a positive result is
returned, otherwise the same characteristic is read again (absent
transport mutation it yields the same bytes) and decoded identically. -/
def read_target_temperature (prev : Nat) (readValue : Option (List Nat))
    (connected : Bool) : Nat :=
  let r := fast_read_target_temperature prev readValue connected
  if 0 < r then r
  else
    match readValue with
    | none => prev
    | some bs =>
      if 2 ≤ bs.length then pyRound10 (decodeWord bs) else prev

/-- C3: for every `t` in `[40, 230]`, writing
`set_target_temperature_bytes t` and then decoding those same bytes back
with the target-temperature read (no transport mutation in between)
returns exactly `t`. -/
theorem set_then_read_target_roundtrip (t prev : Nat) (h1 : 40 ≤ t)
    (h2 : t ≤ 230) :
    read_target_temperature prev (some (set_target_temperature_bytes t)) true
      = t ∧
    fast_read_target_temperature prev (some (set_target_temperature_bytes t))
      true = t := by
  have hfast : fast_read_target_temperature prev
      (some (set_target_temperature_bytes t)) true = t := by
    have hclamp : max 40 (min 230 t) = t := by omega
    have hword : t * 10 % 256 + t * 10 / 256 % 256 * 256 = t * 10 := by omega
    have hround : pyRound10 (t * 10) = t := by
      unfold pyRound10
      rw [if_pos (by omega)]
      omega
    simp only [fast_read_target_temperature, set_target_temperature_bytes,
      hclamp, decodeWord, List.getD_cons_zero, List.getD_cons_succ,
      List.length_cons, List.length_nil, Bool.not_true, hword, hround]
    norm_num
  refine ⟨?_, hfast⟩
  unfold read_target_temperature
  rw [hfast, if_pos (by omega)]

/-- Witness for `set_then_read_target_roundtrip` at `t = 185`. -/
theorem set_then_read_target_roundtrip_witness :
    read_target_temperature 0 (some (set_target_temperature_bytes 185)) true
      = 185 :=
  (set_then_read_target_roundtrip 185 0 (by decide) (by decide)).1

/-! Reconnection backoff (claim C5). -/

/-- Embedding of the retry loop of `VolcanoHybrid._reconnect`
(`volcano.py` lines 575-592): `connectOk a` tells whether the connect
call of attempt `a` succeeds.  Returns (sleep delays performed inside the
loop, number of attempts made, whether reconnection succeeded). -/
def reconnect_loop (connectOk : Nat → Bool) :
    Nat → Nat → List Nat × Nat × Bool
  | _, 0 => ([], 0, false)
  | attempt, n + 1 =>
    if connectOk attempt then ([], 1, true)
    else
      let r := reconnect_loop connectOk (attempt + 1) n
      (min 30 (2 ^ attempt) :: r.1, r.2.1 + 1, r.2.2)

/-- Embedding of `VolcanoHybrid._reconnect`: sleep 2 seconds, then at
most 5 attempts with backoff `min 30 (2 ^ attempt)` after each failure.
Returns (all sleep delays in order, attempts made, success flag). -/
def reconnect (connectOk : Nat → Bool) : List Nat × Nat × Bool :=
  let r := reconnect_loop connectOk 0 5
  (2 :: r.1, r.2)

lemma reconnect_loop_attempts_le (connectOk : Nat → Bool) :
    ∀ n attempt, (reconnect_loop connectOk attempt n).2.1 ≤ n := by
  intro n
  induction n with
  | zero => intro attempt; simp [reconnect_loop]
  | succ n ih =>
    intro attempt
    unfold reconnect_loop
    split_ifs
    · simp
    · have := ih (attempt + 1)
      dsimp only
      omega

/-- C5: after an unexpected disconnect the reconnect procedure first
waits 2 seconds; when every connect attempt fails it makes exactly 5
attempts, sleeping `min 30 (2 ^ attempt)` after each — the delay list is
`[1, 2, 4, 8, 16]`, the prefix of the capped sequence
`min 30 (2 ^ a)` — and then stops with no success.  No run ever makes
more than 5 attempts. -/
theorem reconnect_backoff_schedule :
    reconnect (fun _ => false) = ([2, 1, 2, 4, 8, 16], 5, false) ∧
    (List.range 5).map (fun a => min 30 (2 ^ a)) = [1, 2, 4, 8, 16] ∧
    (∀ connectOk, (reconnect connectOk).2.1 ≤ 5) := by
  refine ⟨by decide, by decide, ?_⟩
  intro connectOk
  unfold reconnect
  exact reconnect_loop_attempts_le connectOk 5 0

/-! Breathe brightness animation (claim C9). -/

/-- One tick of the `ANIMATION_BREATHING` arm of
`VolcanoHybridCoordinator._animation_loop` (`coordinator.py`): add or
subtract the increment 8, flip the direction when the new value is at or
past a bound, then clamp to `[0, 100]`. -/
def breatheStep (s : Int × Bool) : Int × Bool :=
  (min (max (s.1 + (if s.2 then (8 : Int) else -8)) 0) 100,
    if 100 ≤ s.1 + (if s.2 then (8 : Int) else -8) ∨
        s.1 + (if s.2 then (8 : Int) else -8) ≤ 0 then
      !s.2
    else s.2)

/-- The breathe trajectory from brightness 0, direction increasing. -/
def breatheIter (n : Nat) : Int × Bool := breatheStep^[n] (0, true)

lemma breatheStep_range (s : Int × Bool) :
    0 ≤ (breatheStep s).1 ∧ (breatheStep s).1 ≤ 100 := by
  unfold breatheStep
  dsimp only
  constructor
  · exact le_min (le_max_right _ _) (by norm_num)
  · exact min_le_right _ _

lemma breatheStep_flip (s : Int × Bool) :
    ((breatheStep s).2 ≠ s.2) ↔
      ((breatheStep s).1 = 0 ∨ (breatheStep s).1 = 100) := by
  unfold breatheStep
  dsimp only
  rcases s with ⟨b, inc⟩
  dsimp only
  cases inc <;>
    · simp only [if_true, if_false, Bool.not_true, Bool.not_false]
      by_cases h : (100 : Int) ≤ b + (if True then (8 : Int) else -8) ∨
          b + (if True then (8 : Int) else -8) ≤ 0
      all_goals
        simp only [min_def, max_def]
        split_ifs <;> simp_all <;> omega

/-- C9: along the breathe trajectory started at brightness 0 with
increment 8, every tick's brightness lies in `[0, 100]`, and the
direction flips at a tick exactly when that tick's brightness is at a
bound (0 or 100). -/
theorem breathe_pattern_invariant (n : Nat) :
    (0 ≤ (breatheIter n).1 ∧ (breatheIter n).1 ≤ 100) ∧
    ((breatheIter (n + 1)).2 ≠ (breatheIter n).2 ↔
      (breatheIter (n + 1)).1 = 0 ∨ (breatheIter (n + 1)).1 = 100) := by
  constructor
  · cases n with
    | zero => exact ⟨le_refl 0, by norm_num [breatheIter]⟩
    | succ m =>
      have : breatheIter (m + 1) = breatheStep (breatheIter m) := by
        unfold breatheIter
        rw [Function.iterate_succ_apply']
      rw [this]
      exact breatheStep_range (breatheIter m)
  · have : breatheIter (n + 1) = breatheStep (breatheIter n) := by
      unfold breatheIter
      rw [Function.iterate_succ_apply']
    rw [this]
    exact breatheStep_flip (breatheIter n)

/-! Command-queue processing (claim C4). -/

/-- Result delivered to a queued command's future. -/
inductive CmdOutcome where
  | ok : CmdOutcome
  | err : CmdOutcome
deriving Repr, DecidableEq

/-- Embedding of `VolcanoHybrid._process_command_queue` (`volcano.py`
lines 627-659) together with `_execute_command` (lines 790-803), for one
processor run over a fixed queue.  Each queue entry is
(command id, whether its transport write succeeds).  The loop guard is
`self._processing_commands and self._is_connected`; a failed write sets
`self._is_connected = False` inside `_execute_command` and delivers the
exception to that command's future, after which the guard stops the
loop.  Returns (results delivered in order, ids left unprocessed in the
queue, final connected flag). -/
def process_command_queue :
    Bool → List (Nat × Bool) → List (Nat × CmdOutcome) × List Nat × Bool
  | false, queue => ([], queue.map Prod.fst, false)
  | true, [] => ([], [], true)
  | true, (id, writeOk) :: rest =>
    if writeOk then
      let r := process_command_queue true rest
      ((id, CmdOutcome.ok) :: r.1, r.2)
    else
      let r := process_command_queue false rest
      ((id, CmdOutcome.err) :: r.1, r.2)

/-- C4 counterexample: with command 1 whose write fails queued before
command 2, command 2 is never attempted — it receives no result and
stays in the queue, contradicting the claim that every later-queued
command is still attempted on a subsequent loop iteration. -/
theorem command_queue_abandons_after_failure_cex :
    process_command_queue true [(1, false), (2, true)] =
      ([(1, CmdOutcome.err)], [2], false) ∧
    (2, CmdOutcome.ok) ∉
      (process_command_queue true [(1, false), (2, true)]).1 ∧
    (2, CmdOutcome.err) ∉
      (process_command_queue true [(1, false), (2, true)]).1 := by
  refine ⟨rfl, ?_, ?_⟩ <;> decide

/-- C4 amended: when a transport write fails, the connection is marked
down and the error is delivered to that command's result slot only
(commands before it in the queue each already got their own result);
the processor loop then exits because its guard requires a live
connection, leaving every later-queued command unattempted in the queue
(until a later `connect` call restarts the processor). -/
theorem command_queue_failure_behavior (pre : List (Nat × Bool)) (id : Nat)
    (rest : List (Nat × Bool)) (h : ∀ p ∈ pre, p.2 = true) :
    process_command_queue true (pre ++ (id, false) :: rest) =
      (pre.map (fun p => (p.1, CmdOutcome.ok)) ++ [(id, CmdOutcome.err)],
        rest.map Prod.fst, false) := by
  induction pre with
  | nil =>
    rw [List.nil_append]
    simp [process_command_queue]
  | cons p pre ih =>
    rcases p with ⟨pid, pok⟩
    have hok : pok = true := h (pid, pok) (List.mem_cons_self _ _)
    subst hok
    have hrest : ∀ q ∈ pre, q.2 = true := fun q hq =>
      h q (List.mem_cons_of_mem _ hq)
    rw [List.cons_append]
    simp [process_command_queue, ih hrest]

/-- Witness for `command_queue_failure_behavior` at a concrete queue. -/
theorem command_queue_failure_behavior_witness :
    process_command_queue true [(1, true), (2, false), (3, true)] =
      ([(1, CmdOutcome.ok), (2, CmdOutcome.err)], [3], false) :=
  command_queue_failure_behavior [(1, true)] 2 [(3, true)] (by decide)

/-! Current-temperature read path (claim C6). -/

/-- Environment of one `read_current_temperature` call: whether the
temperature cache is still fresh, whether the link is up (and, when it
is not, whether `_ensure_connected` manages to connect), and the
outcomes of the transport reads of the current-temperature
characteristic and of the `register_one` status characteristic
(`none` models a raised or timed-out read). -/
structure TempReadEnv where
  connected : Bool
  cacheFresh : Bool
  primaryRead : Option (List Nat)
  regOneRead : Option (List Nat)
  ensureOk : Bool
deriving Repr, DecidableEq

/-- Outcome of a temperature read: the value handed to the caller, the
cached temperature afterwards, and whether the cache (value and
timestamp) was written. -/
structure TempReadResult where
  value : Nat
  cached : Nat
  cacheUpdated : Bool
deriving Repr, DecidableEq

/-- Embedding of `VolcanoHybrid._fast_read_current_temperature`
(`volcano.py` lines 865-906): fresh cache or any failure returns the
cached value unchanged; a decode `round(u16_le / 10)` above 1000 (the
source also rejects negative values, impossible here) is discarded; an
accepted decode is cached and returned. -/
def fast_read_current_temperature (cached : Nat) (env : TempReadEnv) :
    TempReadResult :=
  if env.cacheFresh then ⟨cached, cached, false⟩
  else if ¬env.connected then ⟨cached, cached, false⟩
  else
    match env.primaryRead with
    | none => ⟨cached, cached, false⟩
    | some bs =>
      if 2 ≤ bs.length then
        let t := pyRound10 (decodeWord bs)
        if 1000 < t then ⟨cached, cached, false⟩ else ⟨t, t, true⟩
      else ⟨cached, cached, false⟩

/-- Embedding of `VolcanoHybrid.read_current_temperature` (`volcano.py`
lines 908-980): try the fast read and return any positive result;
otherwise run the full path: `_ensure_connected`, a fresh read of the
current-temperature characteristic (same transport outcome absent
mutation), and — when that read raises or yields fewer than 2 bytes — a
fallback read of `register_one` decoded as `u16_le &&& 0xFF`.  Every
failure returns the cached value; no error propagates. -/
def read_current_temperature (cached : Nat) (env : TempReadEnv) :
    TempReadResult :=
  let r := fast_read_current_temperature cached env
  if 0 < r.value then r
  else if ¬env.connected ∧ ¬env.ensureOk then r
  else
    let fallback : TempReadResult :=
      match env.regOneRead with
      | some bs =>
        if 2 ≤ bs.length then
          let t := decodeWord bs &&& 0xFF
          if 1000 < t then r else ⟨t, t, true⟩
        else r
      | none => r
    match env.primaryRead with
    | some bs =>
      if 2 ≤ bs.length then
        let t := pyRound10 (decodeWord bs)
        if 1000 < t then r else ⟨t, t, true⟩
      else fallback
    | none => fallback

/-- C6 counterexample: with an empty cache (cached value 0), a failed
primary transport read does not return the cached value unchanged — the
fallback read of `register_one` succeeds, its low byte 55 is stored in
the cache and returned, contradicting the claim that a failed read
always leaves the cache unchanged and yields the cached value. -/
theorem read_current_temperature_fallback_cex :
    read_current_temperature 0
        ⟨true, false, none, some [55, 0], true⟩ = ⟨55, 55, true⟩ ∧
    (55 : Nat) ≠ 0 := by
  refine ⟨?_, by decide⟩
  rfl

/-- C6 amended: `read_current_temperature` never propagates an error (it
is a total function of its environment); when the primary read fails it
returns the cached value unchanged provided the cached value is positive
or the `register_one` fallback read also fails; when the cached value is
0, the primary read fails and the fallback read yields at least 2 bytes,
the fallback's decode `u16_le &&& 0xFF` is cached and returned; a stale-
cache primary decode `round(u16_le / 10)` above 1000 is rejected with
the cache unchanged, and one at most 1000 is cached and returned. -/
theorem read_current_temperature_fallback_behavior (cached : Nat)
    (env : TempReadEnv) :
    (env.primaryRead = none → 0 < cached →
      read_current_temperature cached env = ⟨cached, cached, false⟩) ∧
    (env.primaryRead = none → env.regOneRead = none →
      read_current_temperature cached env = ⟨cached, cached, false⟩) ∧
    (∀ b0 b1 bs, env.primaryRead = none → cached = 0 →
      (env.connected = true ∨ env.ensureOk = true) →
      env.regOneRead = some (b0 :: b1 :: bs) →
      read_current_temperature cached env =
        ⟨(b0 + b1 * 256) &&& 0xFF, (b0 + b1 * 256) &&& 0xFF, true⟩) ∧
    (∀ b0 b1 bs, env.cacheFresh = false → env.connected = true →
      env.primaryRead = some (b0 :: b1 :: bs) →
      1000 < pyRound10 (b0 + b1 * 256) →
      read_current_temperature cached env = ⟨cached, cached, false⟩) ∧
    (∀ b0 b1 bs, env.cacheFresh = false → env.connected = true →
      env.primaryRead = some (b0 :: b1 :: bs) →
      pyRound10 (b0 + b1 * 256) ≤ 1000 →
      read_current_temperature cached env =
        ⟨pyRound10 (b0 + b1 * 256), pyRound10 (b0 + b1 * 256), true⟩) := by
  have hw : ∀ (b0 b1 : Nat) (bs : List Nat),
      decodeWord (b0 :: b1 :: bs) = b0 + b1 * 256 := by
    intro b0 b1 bs; rfl
  refine ⟨?_, ?_, ?_, ?_, ?_⟩
  · intro hp hc
    have hfast : fast_read_current_temperature cached env =
        ⟨cached, cached, false⟩ := by
      unfold fast_read_current_temperature
      rw [hp]
      split_ifs <;> rfl
    unfold read_current_temperature
    rw [hfast]
    rw [if_pos hc]
  · intro hp hr
    have hfast : fast_read_current_temperature cached env =
        ⟨cached, cached, false⟩ := by
      unfold fast_read_current_temperature
      rw [hp]
      split_ifs <;> rfl
    unfold read_current_temperature
    rw [hfast, hp, hr]
    dsimp only
    split_ifs <;> rfl
  · intro b0 b1 bs hp hc hcon hr
    subst hc
    have hfast : fast_read_current_temperature 0 env = ⟨0, 0, false⟩ := by
      unfold fast_read_current_temperature
      rw [hp]
      split_ifs <;> rfl
    have hand : (b0 + b1 * 256) &&& 255 ≤ 255 := Nat.and_le_right
    unfold read_current_temperature
    rw [hfast, hp, hr]
    dsimp only
    rw [if_neg (by omega)]
    rw [if_neg (by tauto)]
    rw [if_pos (by simp), hw]
    rw [if_neg (by omega)]
  · intro b0 b1 bs hfr hcon hp hbig
    simp [read_current_temperature, fast_read_current_temperature, hfr,
      hcon, hp, hw, hbig]
  · intro b0 b1 bs hfr hcon hp hle
    have hnb : ¬(1000 < pyRound10 (b0 + b1 * 256)) := by omega
    simp [read_current_temperature, fast_read_current_temperature, hfr,
      hcon, hp, hw, hnb]

/-- Witness for `read_current_temperature_fallback_behavior`: a failed
primary read with a positive cached value returns the cache unchanged. -/
theorem read_current_temperature_fallback_behavior_witness :
    read_current_temperature 180 ⟨true, false, none, none, true⟩ =
      ⟨180, 180, false⟩ :=
  (read_current_temperature_fallback_behavior 180
    ⟨true, false, none, none, true⟩).1 rfl (by decide)

/-! Auto-off time decoding (claim C7). -/

/-- Embedding of the auto-off decode in
`VolcanoHybrid._read_device_information` (`volcano.py` lines 373-399),
returning minutes.  The source guards the whole decode with
`if auto_off_value and len(auto_off_value) >= 2`, so the inner
single-byte arm (`if len(auto_off_value) == 1`) is unreachable; it is
kept here verbatim.  A payload that fails the outer guard (missing,
empty or single-byte) gets the 30-minute default. -/
def read_auto_off_minutes (autoOffValue : Option (List Nat)) : Nat :=
  match autoOffValue with
  | none => 30
  | some bs =>
    if bs ≠ [] ∧ 2 ≤ bs.length then
      let minutes :=
        if bs.length = 1 then bs.getD 0 0
        else
          let m := decodeWord bs
          if 180 < m ∧ m % 60 = 0 then m / 60 else m
      if minutes < 1 ∨ 180 < minutes then 30 else minutes
    else 30

/-- C7: the claim says a 1-byte auto-off payload is accepted, but the
single-byte branch of the source sits under a `len >= 2` guard and is
unreachable: the 1-byte payload `0x3C` (60) decodes to the 30-minute
default instead of 60 minutes.  The remaining parts of the claim do hold
on the code: bytes `0x3C 0x00` decode to 60 minutes, and raw value 1204
(bytes `0xB4 0x04`, over 180 and not divisible by 60) falls back to the
30-minute default; a value divisible by 60 and over 180, such as 7200,
is first reinterpreted as seconds (7200 / 60 = 120 minutes). -/
theorem auto_off_single_byte_bug :
    read_auto_off_minutes (some [0x3C]) = 30 ∧
    (30 : Nat) ≠ 60 ∧
    read_auto_off_minutes (some [0x3C, 0x00]) = 60 ∧
    read_auto_off_minutes (some [0xB4, 0x04]) = 30 ∧
    read_auto_off_minutes (some [0x20, 0x1C]) = 120 ∧
    read_auto_off_minutes none = 30 := by
  refine ⟨rfl, by decide, rfl, ?_, ?_, rfl⟩ <;> decide

end VolcanoHybrid
